import Mathlib

/-!
Verification of the whatsapp-notifier service (Go) against its
natural-language specification.  The Go source is embedded shallowly:
pure functions become Lean functions, the stateful pieces (session flags,
rate-limiter buckets, the reconnection goroutines) become explicit state
passing or executable step functions on a state type.  Machine integers
are modelled as Nat/Int with explicit `% 2 ^ w` where overflow matters,
byte strings as `List Nat` with every element `< 256`.
-/

set_option maxRecDepth 10000
set_option linter.unnecessarySeqFocus false

namespace WhatsappNotifier

/-! ## Session connectivity state (internal/app/whatsapp.go)

The observable state of `WhatsAppClient` relevant to connectivity:
`internalConnected` is the `isConnected` field guarded by
`reconnectMutex`, `clientConnected` is the transport predicate
`w.Client.IsConnected()`, `hasStoreID` is `w.Client.Store.ID != nil`
(credential presence), `reconnectActive` is `w.cancelReconnect != nil`. -/

structure SessionState where
  internalConnected : Bool
  clientConnected : Bool
  hasStoreID : Bool
  reconnectActive : Bool
deriving DecidableEq, Repr

/-- Source `WhatsAppClient.IsConnected` (whatsapp.go lines 329-335):
returns `w.isConnected && w.Client.IsConnected()`. -/
def IsConnected (s : SessionState) : Bool :=
  s.internalConnected && s.clientConnected

/-- The snapshot returned by `WhatsAppClient.GetConnectionStatus`
(whatsapp.go lines 348-359). -/
structure ConnectionStatus where
  connected : Bool
  internalState : Bool
  clientState : Bool
  hasSession : Bool
  reconnectionActive : Bool
deriving DecidableEq, Repr

/-- Source `WhatsAppClient.GetConnectionStatus`: each map entry becomes a field. -/
def GetConnectionStatus (s : SessionState) : ConnectionStatus :=
  { connected := s.internalConnected && s.clientConnected
    internalState := s.internalConnected
    clientState := s.clientConnected
    hasSession := s.hasStoreID
    reconnectionActive := s.reconnectActive }

/-- Modelled from the spec: the connected predicate the specification
describes, the logical AND of all three of {internal flag, transport
predicate, credential presence}.  Used only to compare the spec text
with the source function `IsConnected`. -/
def specIsConnected (s : SessionState) : Bool :=
  s.internalConnected && s.clientConnected && s.hasStoreID

/-! ## Rate limiter (internal/validation/validation.go, package middleware)

`ClientBucket` carries `tokens int` and `lastRefill time.Time`; we model
time as a Nat of nanoseconds (Go durations are int64 nanoseconds and the
code only ever subtracts an earlier stamp from `time.Now()`).  `tokens`
is a Go `int`, modelled as `Int`. -/

structure ClientBucket where
  tokens : Int
  lastRefill : Nat
deriving DecidableEq, Repr

structure RateLimiter where
  clients : List (String × ClientBucket)
  requestsPerMinute : Int
  windowSize : Nat
deriving DecidableEq, Repr

/-- The rate limiter constructed by `middleware.New`:
60 requests per minute, window `time.Minute` = 6e10 ns. -/
def middlewareNewLimiter : RateLimiter :=
  { clients := [], requestsPerMinute := 60, windowSize := 60000000000 }

/-- Association-list lookup standing in for the Go map read
`rl.clients[clientIP]`. -/
def lookupBucket (cs : List (String × ClientBucket)) (ip : String) :
    Option ClientBucket :=
  match cs with
  | [] => none
  | (k, b) :: rest => if k = ip then some b else lookupBucket rest ip

/-- Association-list update standing in for the Go map write. -/
def storeBucket (cs : List (String × ClientBucket)) (ip : String)
    (b : ClientBucket) : List (String × ClientBucket) :=
  match cs with
  | [] => [(ip, b)]
  | (k, b0) :: rest =>
      if k = ip then (ip, b) :: rest else (k, b0) :: storeBucket rest ip b

/-- Source `RateLimiter.Allow` (validation.go lines 272-304).  Looks up or
lazily creates the bucket for `clientIP`, refills it to full capacity
when the elapsed time since the last refill reaches the window size,
then consumes one token if any remains.  `now` is the value of
`time.Now()` at the call. -/
def RateLimiter.Allow (rl : RateLimiter) (clientIP : String) (now : Nat) :
    Bool × RateLimiter :=
  let bucket :=
    match lookupBucket rl.clients clientIP with
    | some b => b
    | none => { tokens := rl.requestsPerMinute, lastRefill := now }
  let elapsed := now - bucket.lastRefill
  let bucket :=
    if elapsed ≥ rl.windowSize then
      { tokens := rl.requestsPerMinute, lastRefill := now }
    else bucket
  if bucket.tokens > 0 then
    let consumed : ClientBucket := { bucket with tokens := bucket.tokens - 1 }
    (true, { rl with clients := storeBucket rl.clients clientIP consumed })
  else
    (false, { rl with clients := storeBucket rl.clients clientIP bucket })

/-- Run a sequence of `Allow` calls for one identity at the given times,
returning the list of admission decisions and the final limiter state. -/
def allowRun (rl : RateLimiter) (ip : String) : List Nat → List Bool × RateLimiter
  | [] => ([], rl)
  | t :: ts =>
      let (b, rl1) := rl.Allow ip t
      let (bs, rl2) := allowRun rl1 ip ts
      (b :: bs, rl2)

/-! ## Reconnection backoff (internal/app/whatsapp.go)

`ReconnectConfig` from `NewWhatsAppClient`: `MaxRetries 10`,
`InitialInterval 5s`, `MaxInterval 5min`, `Multiplier 1.5`.  Durations
are int64 nanoseconds.  The code computes
`interval = time.Duration(float64(interval) * 1.5)` and caps it at
`MaxInterval`; for every interval reachable from the default
configuration the value `interval * 3 / 2` is an integer below `2 ^ 53`
(the intervals are `2 ^ (9 - k) * 5 ^ 10 * 3 ^ k` nanoseconds for
`k ≤ 9`), so the float64 round trip is exact and the recurrence below
is the exact value the Go code computes. -/

structure ReconnectConfig where
  maxRetries : Nat
  initialIntervalNs : Nat
  maxIntervalNs : Nat
deriving DecidableEq, Repr

def defaultReconnectConfig : ReconnectConfig :=
  { maxRetries := 10
    initialIntervalNs := 5000000000
    maxIntervalNs := 300000000000 }

/-- One backoff update from `startReconnection` (whatsapp.go lines
169-173): multiply by 1.5, then cap at the maximum. -/
def nextIntervalNs (cfg : ReconnectConfig) (i : Nat) : Nat :=
  let j := i * 3 / 2
  if j > cfg.maxIntervalNs then cfg.maxIntervalNs else j

/-- The waiting intervals of `startReconnection` when every attempt
fails: attempt `k+1` waits `reconnectWaitsFrom` applied to the interval
reached after `k` failures; the loop runs `MaxRetries` attempts and then
stops. -/
def reconnectWaitsFrom (cfg : ReconnectConfig) : Nat → Nat → List Nat
  | 0, _ => []
  | k + 1, i => i :: reconnectWaitsFrom cfg k (nextIntervalNs cfg i)

def reconnectWaits (cfg : ReconnectConfig) : List Nat :=
  reconnectWaitsFrom cfg cfg.maxRetries cfg.initialIntervalNs

/-! ## SHA-256 and HMAC (crypto/sha256, crypto/hmac)

Byte strings are `List Nat` with elements below 256; 32-bit words are
`Nat` reduced with `% 2 ^ 32` after every arithmetic step, exactly as
the FIPS 180-4 algorithm the Go standard library implements. -/

def w32 (n : Nat) : Nat := n % 4294967296

def rotr32 (n w : Nat) : Nat := w32 ((w >>> n) ||| (w <<< (32 - n)))

def sha256K : List Nat :=
  [1116352408, 1899447441, 3049323471, 3921009573,
   961987163, 1508970993, 2453635748, 2870763221,
   3624381080, 310598401, 607225278, 1426881987,
   1925078388, 2162078206, 2614888103, 3248222580,
   3835390401, 4022224774, 264347078, 604807628,
   770255983, 1249150122, 1555081692, 1996064986,
   2554220882, 2821834349, 2952996808, 3210313671,
   3336571891, 3584528711, 113926993, 338241895,
   666307205, 773529912, 1294757372, 1396182291,
   1695183700, 1986661051, 2177026350, 2456956037,
   2730485921, 2820302411, 3259730800, 3345764771,
   3516065817, 3600352804, 4094571909, 275423344,
   430227734, 506948616, 659060556, 883997877,
   958139571, 1322822218, 1537002063, 1747873779,
   1955562222, 2024104815, 2227730452, 2361852424,
   2428436474, 2756734187, 3204031479, 3329325298]

/-- Big-endian 64-bit encoding of the message bit length. -/
def be64 (n : Nat) : List Nat :=
  [(n >>> 56) % 256, (n >>> 48) % 256, (n >>> 40) % 256, (n >>> 32) % 256,
   (n >>> 24) % 256, (n >>> 16) % 256, (n >>> 8) % 256, n % 256]

/-- SHA-256 padding: append 0x80, zeros to 56 mod 64, then the bit
length. -/
def sha256Pad (msg : List Nat) : List Nat :=
  let padZeros := (119 - msg.length % 64) % 64
  msg ++ [128] ++ List.replicate padZeros 0 ++ be64 (8 * msg.length)

/-- Split a byte list into 64-byte blocks; the fuel bounds the number
of blocks by the length, keeping the recursion structural. -/
def chunks64Fuel : Nat → List Nat → List (List Nat)
  | 0, _ => []
  | _, [] => []
  | fuel + 1, x :: xs => (x :: xs).take 64 :: chunks64Fuel fuel ((x :: xs).drop 64)

def chunks64 (l : List Nat) : List (List Nat) :=
  chunks64Fuel l.length l

/-- Big-endian 32-bit words from bytes. -/
def wordsOfBytes : List Nat → List Nat
  | b0 :: b1 :: b2 :: b3 :: rest =>
      (((b0 * 256 + b1) * 256 + b2) * 256 + b3) :: wordsOfBytes rest
  | _ => []

def smallSigma0 (w : Nat) : Nat := (rotr32 7 w) ^^^ (rotr32 18 w) ^^^ (w >>> 3)

def smallSigma1 (w : Nat) : Nat := (rotr32 17 w) ^^^ (rotr32 19 w) ^^^ (w >>> 10)

def bigSigma0 (w : Nat) : Nat := (rotr32 2 w) ^^^ (rotr32 13 w) ^^^ (rotr32 22 w)

def bigSigma1 (w : Nat) : Nat := (rotr32 6 w) ^^^ (rotr32 11 w) ^^^ (rotr32 25 w)

def chWord (x y z : Nat) : Nat := (x &&& y) ^^^ ((x ^^^ 4294967295) &&& z)

def majWord (x y z : Nat) : Nat := (x &&& y) ^^^ (x &&& z) ^^^ (y &&& z)

/-- One message-schedule word from the 16 most recent words (most
recent first). -/
def scheduleStep (rws : List Nat) : Nat :=
  w32 (smallSigma1 (rws.getD 1 0) + rws.getD 6 0 +
       smallSigma0 (rws.getD 14 0) + rws.getD 15 0)

/-- Extend the reversed schedule by `k` words and return it in order. -/
def buildSchedule : Nat → List Nat → List Nat
  | 0, rws => rws.reverse
  | k + 1, rws => buildSchedule k (scheduleStep rws :: rws)

structure Hash8 where
  a : Nat
  b : Nat
  c : Nat
  d : Nat
  e : Nat
  f : Nat
  g : Nat
  h : Nat
deriving DecidableEq, Repr

def sha256H0 : Hash8 :=
  ⟨1779033703, 3144134277, 1013904242, 2773480762,
   1359893119, 2600822924, 528734635, 1541459225⟩

def compressRound (st : Hash8) (kw : Nat × Nat) : Hash8 :=
  let t1 := w32 (st.h + bigSigma1 st.e + chWord st.e st.f st.g + kw.1 + kw.2)
  let t2 := w32 (bigSigma0 st.a + majWord st.a st.b st.c)
  ⟨w32 (t1 + t2), st.a, st.b, st.c, w32 (st.d + t1), st.e, st.f, st.g⟩

def processBlock (hs : Hash8) (block : List Nat) : Hash8 :=
  let ws := buildSchedule 48 (wordsOfBytes block).reverse
  let st := (sha256K.zip ws).foldl compressRound hs
  ⟨w32 (hs.a + st.a), w32 (hs.b + st.b), w32 (hs.c + st.c), w32 (hs.d + st.d),
   w32 (hs.e + st.e), w32 (hs.f + st.f), w32 (hs.g + st.g), w32 (hs.h + st.h)⟩

/-- Big-endian bytes of a 32-bit word. -/
def bytesOfWord (w : Nat) : List Nat :=
  [(w >>> 24) % 256, (w >>> 16) % 256, (w >>> 8) % 256, w % 256]

/-- SHA-256 digest, 32 bytes. -/
def sha256 (msg : List Nat) : List Nat :=
  let hs := (chunks64 (sha256Pad msg)).foldl processBlock sha256H0
  bytesOfWord hs.a ++ bytesOfWord hs.b ++ bytesOfWord hs.c ++ bytesOfWord hs.d ++
  bytesOfWord hs.e ++ bytesOfWord hs.f ++ bytesOfWord hs.g ++ bytesOfWord hs.h

/-- HMAC-SHA256, RFC 2104 with block size 64, as `hmac.New(sha256.New,
key)` computes it. -/
def hmacSha256 (key msg : List Nat) : List Nat :=
  let key0 := if key.length > 64 then sha256 key else key
  let key1 := key0 ++ List.replicate (64 - key0.length) 0
  let ipadKey := key1.map (fun b => b ^^^ 54)
  let opadKey := key1.map (fun b => b ^^^ 92)
  sha256 (opadKey ++ sha256 (ipadKey ++ msg))

/-- Two lowercase hex characters for one byte, matching
`hex.EncodeToString`. -/
def hexByteChars (b : Nat) : List Char :=
  [Nat.digitChar (b / 16), Nat.digitChar (b % 16)]

def hexEncode (bs : List Nat) : String :=
  String.mk (bs.map hexByteChars).flatten

/-- UTF-8 bytes of an ASCII string; all string data in the verified
scenarios (secrets, hex digests, JSON bodies) is ASCII, where the byte
and character views coincide. -/
def asciiBytes (s : String) : List Nat := s.data.map Char.toNat

/-- Source `hmac.Equal` performs a constant-time comparison whose boolean
result equals byte equality of the two strings. -/
def hmacEqual (a b : String) : Bool := a == b

/-! ## Webhook verification (whatsapp.go handlers part, handlers/github.go)

`WebhookConfig` from the generic webhook handler.  The Go field
`SignaturePrefix` is rendered as `sigPfx`. -/

structure WebhookConfig where
  provider : String
  signatureHeader : String
  secret : String
  recipient : String
  sigPfx : String
deriving DecidableEq, Repr

/-- Source `strings.HasPrefix` via the character lists. -/
def hasPfxStr (s pfx : String) : Bool :=
  s.data.take pfx.data.length == pfx.data

/-- Source `strings.TrimPrefix`. -/
def trimPfxStr (s pfx : String) : String :=
  if hasPfxStr s pfx then String.mk (s.data.drop pfx.data.length) else s

/-- Source `Handler.verifyWebhookSignature` (generic webhook handler): skip
verification when no secret is configured; otherwise require and strip
the provider signature leader when one is configured, compute the
HMAC-SHA256 hex digest of the raw body, and compare with `hmac.Equal`. -/
def verifyWebhookSignature (cfg : WebhookConfig) (payload : List Nat)
    (headerSignature : String) : Bool :=
  if cfg.secret = "" then true
  else if cfg.sigPfx ≠ "" && !hasPfxStr headerSignature cfg.sigPfx then false
  else
    let provided :=
      if cfg.sigPfx ≠ "" then trimPfxStr headerSignature cfg.sigPfx
      else headerSignature
    hmacEqual provided (hexEncode (hmacSha256 (asciiBytes cfg.secret) payload))

/-- Source `Handler.verifyGitHubSignature` (handlers/github.go lines 76-98):
fixed leader "sha256=". -/
def verifyGitHubSignature (githubSecret : String) (payload : List Nat)
    (headerSignature : String) : Bool :=
  if githubSecret = "" then true
  else if !hasPfxStr headerSignature "sha256=" then false
  else
    hmacEqual (trimPfxStr headerSignature "sha256=")
      (hexEncode (hmacSha256 (asciiBytes githubSecret) payload))

/-- Source `Handler.verifyGiteaSignature` (handlers/handlers.go lines 222-237):
no leader, raw hex digest in the header. -/
def verifyGiteaSignature (giteaSecret : String) (payload : List Nat)
    (headerSignature : String) : Bool :=
  if giteaSecret = "" then true
  else
    hmacEqual headerSignature
      (hexEncode (hmacSha256 (asciiBytes giteaSecret) payload))

/-! ## Message formatting

Go string operations (`len`, slicing, `strings.Index`) are bytewise;
they are modelled at the character level, which coincides on the ASCII
data of every verified scenario. -/

/-- Source `models.CommitInfo` (internal/models/models.go). -/
structure CommitInfo where
  id : String
  message : String
  url : String
deriving DecidableEq, Repr

structure FileChangeSummary where
  totalAdded : Nat
  totalModified : Nat
  totalRemoved : Nat
  addedFiles : List String
  modifiedFiles : List String
  removedFiles : List String
deriving DecidableEq, Repr

/-- The `WebhookPayload` interface consumed by the generic webhook
handler, as a record of its getter results. -/
structure WebhookPayload where
  repositoryName : String
  pusherName : String
  branch : String
  commitCount : Nat
  commits : List CommitInfo
  compareURL : String
  fileChanges : FileChangeSummary
deriving DecidableEq, Repr

/-- Short commit hash: first 7 characters when longer. -/
def shortHashOf (id : String) : String :=
  if id.length > 7 then id.take 7 else id

/-- First line of a commit message: `strings.Index(message, "\n")`,
cut there when found. -/
def firstLineOf (m : String) : String :=
  String.mk (m.data.takeWhile (fun c => c ≠ '\n'))

/-- Truncation of long commit messages: over 60 characters becomes the
first 57 plus "...". -/
def truncMessage (m : String) : String :=
  if m.length > 60 then m.take 57 ++ "..." else m

/-- One commit line of `formatWebhookMessage`:
`fmt.Sprintf("• `+"`"+`%s`+"`"+` - %s\n", shortHash, message)`. -/
def genericCommitLine (c : CommitInfo) : String :=
  "• `" ++ shortHashOf c.id ++ "` - " ++ truncMessage (firstLineOf c.message) ++ "\n"

/-- One commit line of `formatGitHubMessage` / `formatGiteaMessage`:
no backticks around the hash. -/
def plainCommitLine (id message : String) : String :=
  "• " ++ shortHashOf id ++ " - " ++ truncMessage (firstLineOf message) ++ "\n"

/-- The commits section body: the first five commits, then a
"...and %d more commit(s)" line when more exist. -/
def commitLinesWith (line : α → String) (cs : List α) : String :=
  String.join ((cs.take 5).map line) ++
    (if cs.length > 5 then
      "\n_...and " ++ toString (cs.length - 5) ++ " more commit(s)_\n"
    else "")

/-- File list section helper of `formatWebhookMessage`: the first 20
files, then a "...and %d more" line. -/
def fileLines (files : List String) : String :=
  String.join ((files.take 20).map (fun f => "   • " ++ f ++ "\n")) ++
    (if files.length > 20 then
      "   _...and " ++ toString (files.length - 20) ++ " more_\n"
    else "")

/-- The GitHub-only file-change section of `formatWebhookMessage`. -/
def fileChangeSection (fc : FileChangeSummary) : String :=
  if fc.totalAdded + fc.totalModified + fc.totalRemoved > 0 then
    "\n\n*File Changes:*\n" ++
    (if fc.totalAdded > 0 then
      "✅ Added: " ++ toString fc.totalAdded ++ "\n" ++ fileLines fc.addedFiles
    else "") ++
    (if fc.totalModified > 0 then
      "\n📝 Modified: " ++ toString fc.totalModified ++ "\n" ++
        fileLines fc.modifiedFiles
    else "") ++
    (if fc.totalRemoved > 0 then
      "\n❌ Removed: " ++ toString fc.totalRemoved ++ "\n" ++
        fileLines fc.removedFiles
    else "")
  else ""

/-- Source `Handler.formatWebhookMessage` (generic webhook handler).  When the
commit list is empty it logs a warning and returns the builder content
accumulated so far, which already holds the repository/pusher/branch
header.  (The adjacent comment in the source says "return empty
string", but the returned builder is not empty.) -/
def formatWebhookMessage (p : WebhookPayload) (provider : String) : String :=
  let header :=
    "🔔 New Push to *" ++ p.repositoryName ++ "*\n" ++
    "\n```" ++
    "👤 Pusher : " ++ p.pusherName ++ "\n" ++
    "🌿 Branch : " ++ p.branch ++ "\n" ++
    "📊 Commits: " ++ toString p.commitCount ++ "\n" ++
    "```\n"
  if p.commits.isEmpty then header
  else
    header ++ "*Commits:*\n" ++ commitLinesWith genericCommitLine p.commits ++
    (if provider = "GitHub" then
      (if p.compareURL ≠ "" then "\n🔗 View changes: " ++ p.compareURL else "") ++
      fileChangeSection p.fileChanges
    else "")

/-! ## Provider payloads (internal/models)

Only the fields the handlers read are modelled; the remaining JSON
fields never influence behaviour. -/

structure CommitUser where
  name : String
deriving DecidableEq, Repr

structure GitHubCommit where
  id : String
  message : String
  url : String
  committer : CommitUser
deriving DecidableEq, Repr

structure GitHubWebhookPayload where
  ref : String
  compare : String
  commits : List GitHubCommit
  repositoryFullName : String
  pusherName : String
deriving DecidableEq, Repr

structure GiteaCommit where
  id : String
  message : String
  url : String
  committer : CommitUser
deriving DecidableEq, Repr

structure GiteaWebhookPayload where
  ref : String
  compareURL : String
  commits : List GiteaCommit
  repositoryFullName : String
  pusherName : String
deriving DecidableEq, Repr

/-- Source `Handler.formatGitHubMessage` (handlers/github.go lines 101-154). -/
def formatGitHubMessage (p : GitHubWebhookPayload) : String :=
  let pusherName :=
    match p.commits with
    | c0 :: _ => if c0.committer.name ≠ "" then c0.committer.name else p.pusherName
    | [] => p.pusherName
  "🔔 *New Push to " ++ p.repositoryFullName ++ "*\n\n" ++
  "👤 Pusher: " ++ pusherName ++ "\n" ++
  "🌿 Branch: " ++ trimPfxStr p.ref "refs/heads/" ++ "\n" ++
  "📊 Commits: " ++ toString p.commits.length ++ "\n\n" ++
  (if p.commits.isEmpty then ""
   else "*Commits:*\n" ++
     commitLinesWith (fun c : GitHubCommit => plainCommitLine c.id c.message)
       p.commits) ++
  (if p.compare ≠ "" then "\n🔗 View changes: " ++ p.compare else "")

/-- Source `Handler.formatGiteaMessage` (handlers/handlers.go lines 239-285):
the pusher line reads `payload.Commits[0].Committer.Name`
unconditionally, so a payload with zero commits raises an
index-out-of-range runtime fault, modelled as the error branch. -/
def formatGiteaMessage (p : GiteaWebhookPayload) : Except String String :=
  match p.commits with
  | [] => .error "runtime error: index out of range [0] with length 0"
  | c0 :: _ =>
      .ok ("🔔 *New Push to " ++ p.repositoryFullName ++ "*\n\n" ++
        "👤 Pusher: " ++ c0.committer.name ++ "\n" ++
        "🌿 Branch: " ++ trimPfxStr p.ref "refs/heads/" ++ "\n" ++
        "📊 Commits: " ++ toString p.commits.length ++ "\n\n" ++
        "*Commits:*\n" ++
        commitLinesWith (fun c : GiteaCommit => plainCommitLine c.id c.message)
          p.commits ++
        (if p.compareURL ≠ "" then "\n🔗 View changes: " ++ p.compareURL else ""))

/-! ## Error kinds (internal/errors) -/

inductive ErrCode
  | invalidRequest
  | validationFailed
  | unauthorized
  | forbidden
  | notFound
  | tooManyRequests
  | clientNotConnected
  | connectionFailed
  | messageSendFailed
  | invalidJID
  | internalError
  | serviceUnavailable
  | databaseError
deriving DecidableEq, Repr

/-- Source `getStatusCodeForError` (internal/errors). -/
def getStatusCodeForError : ErrCode → Nat
  | .invalidRequest => 400
  | .validationFailed => 400
  | .invalidJID => 400
  | .unauthorized => 401
  | .forbidden => 403
  | .notFound => 404
  | .tooManyRequests => 429
  | .clientNotConnected => 503
  | .serviceUnavailable => 503
  | .internalError => 500
  | .connectionFailed => 500
  | .messageSendFailed => 500
  | .databaseError => 500

/-! ## Webhook dispatch handlers

A handler outcome is either a structured application error (written by
`writeAppError` with the status of its code) or a JSON success body.
`sendAttempts` collects every `SendText` invocation as
(recipient, message); the booleans `connected`, `ensureOk` and `sendOk`
are the oracle outcomes of the transport calls `IsConnected`,
`EnsureConnected` and `SendText`. -/

inductive HandlerOutcome
  | appError (code : ErrCode) (msg : String)
  | json (status : Nat) (body : String)
deriving DecidableEq, Repr

def jsonNotificationSent : String :=
  "\x7b\"status\":\"notification sent\"\x7d"

/-- Source `Handler.handleWebhook` (generic webhook handler, lines 424-483 of
the combined app/handlers source): signature header presence, signature
verification, payload parse, connection assurance, formatting (with the
empty-message validation branch), send. -/
def handleWebhook (cfg : WebhookConfig) (headerSignature : String)
    (body : List Nat) (parsed : Except String WebhookPayload)
    (connected ensureOk sendOk : Bool) :
    HandlerOutcome × List (String × String) :=
  if headerSignature = "" then
    (.appError .unauthorized ("Missing " ++ cfg.signatureHeader ++ " header"), [])
  else if !verifyWebhookSignature cfg body headerSignature then
    (.appError .unauthorized "Invalid webhook signature", [])
  else
    match parsed with
    | .error e => (.appError .invalidRequest ("Invalid webhook payload: " ++ e), [])
    | .ok payload =>
        if !connected && !ensureOk then
          (.appError .connectionFailed "Failed to connect to WhatsApp", [])
        else
          let message := formatWebhookMessage payload cfg.provider
          if message = "" then
            (.appError .invalidRequest "Webhook payload has no commits to notify", [])
          else if !sendOk then
            (.appError .messageSendFailed "Failed to send message",
             [(cfg.recipient, message)])
          else
            (.json 200 jsonNotificationSent, [(cfg.recipient, message)])

/-- Source `Handler.GitHubWebhook` (handlers/github.go lines 18-73): the
provider-specific pipeline; the formatted message is sent without any
emptiness check. -/
def githubWebhook (githubSecret githubRecipient : String)
    (headerSignature : String) (body : List Nat)
    (parsed : Except String GitHubWebhookPayload)
    (connected ensureOk sendOk : Bool) :
    HandlerOutcome × List (String × String) :=
  if headerSignature = "" then
    (.appError .unauthorized "Missing X-Hub-Signature-256 header", [])
  else if !verifyGitHubSignature githubSecret body headerSignature then
    (.appError .unauthorized "Invalid webhook signature", [])
  else
    match parsed with
    | .error e => (.appError .invalidRequest ("Invalid webhook payload: " ++ e), [])
    | .ok payload =>
        if !connected && !ensureOk then
          (.appError .connectionFailed "Failed to connect to WhatsApp", [])
        else
          let message := formatGitHubMessage payload
          if !sendOk then
            (.appError .messageSendFailed "Failed to send message",
             [(githubRecipient, message)])
          else
            (.json 200 jsonNotificationSent, [(githubRecipient, message)])

/-- An outcome that can also record an escaped runtime fault. -/
inductive PanickyOutcome
  | panicked (msg : String)
  | done (o : HandlerOutcome) (sendAttempts : List (String × String))
deriving DecidableEq, Repr

/-- Source `Handler.GiteaWebhook` (handlers/handlers.go lines 164-220): same
pipeline, but `formatGiteaMessage` faults on zero commits and the fault
propagates out of the handler. -/
def giteaWebhook (giteaSecret giteaRecipient : String)
    (headerSignature : String) (body : List Nat)
    (parsed : Except String GiteaWebhookPayload)
    (connected ensureOk sendOk : Bool) : PanickyOutcome :=
  if headerSignature = "" then
    .done (.appError .unauthorized "Missing X-Gitea-Signature header") []
  else if !verifyGiteaSignature giteaSecret body headerSignature then
    .done (.appError .unauthorized "Invalid webhook signature") []
  else
    match parsed with
    | .error e => .done (.appError .invalidRequest ("Invalid webhook payload: " ++ e)) []
    | .ok payload =>
        if !connected && !ensureOk then
          .done (.appError .connectionFailed "Failed to connect to WhatsApp") []
        else
          match formatGiteaMessage payload with
          | .error p => .panicked p
          | .ok message =>
              if !sendOk then
                .done (.appError .messageSendFailed "Failed to send message")
                  [(giteaRecipient, message)]
              else
                .done (.json 200 jsonNotificationSent) [(giteaRecipient, message)]

/-! ## Send-message validation (internal/validation/validation.go)

The Go regular expressions anchor at both ends and each pattern places
a literal non-digit right after the digit block, so every pattern is
equivalent to: the maximal leading digit run has the required length
and the remainder equals the literal tail. -/

/-- Source `strings.TrimSpace`: drop leading and trailing whitespace. -/
def goTrimSpace (s : String) : String :=
  String.mk
    (((s.data.dropWhile Char.isWhitespace).reverse.dropWhile
      Char.isWhitespace).reverse)

/-- Pattern `\d{10,15}@s\.whatsapp\.net` anchored at both ends. -/
def matchIndividualJID (s : String) : Bool :=
  let ds := s.data.takeWhile Char.isDigit
  decide (10 ≤ ds.length) && decide (ds.length ≤ 15) &&
    (String.mk (s.data.dropWhile Char.isDigit) == "@s.whatsapp.net")

/-- Pattern `\d+@g\.us` anchored at both ends. -/
def matchGroupJID (s : String) : Bool :=
  let ds := s.data.takeWhile Char.isDigit
  decide (1 ≤ ds.length) &&
    (String.mk (s.data.dropWhile Char.isDigit) == "@g.us")

/-- Pattern `\d{10,15}@c\.us` anchored at both ends. -/
def matchBusinessJID (s : String) : Bool :=
  let ds := s.data.takeWhile Char.isDigit
  decide (10 ≤ ds.length) && decide (ds.length ≤ 15) &&
    (String.mk (s.data.dropWhile Char.isDigit) == "@c.us")

/-- Pattern `\d+@lid` anchored at both ends. -/
def matchLidJID (s : String) : Bool :=
  let ds := s.data.takeWhile Char.isDigit
  decide (1 ≤ ds.length) &&
    (String.mk (s.data.dropWhile Char.isDigit) == "@lid")

/-- Pattern `\d+:\d+@lid` anchored at both ends. -/
def matchLidSuffixJID (s : String) : Bool :=
  let ds := s.data.takeWhile Char.isDigit
  match s.data.dropWhile Char.isDigit with
  | ':' :: rest =>
      let ds2 := rest.takeWhile Char.isDigit
      decide (1 ≤ ds.length) && decide (1 ≤ ds2.length) &&
        (String.mk (rest.dropWhile Char.isDigit) == "@lid")
  | _ => false

/-- Source `Validator.IsValidJID` (validation.go lines 65-94). -/
def IsValidJID (jid : String) : Bool :=
  let jid := goTrimSpace jid
  matchIndividualJID jid || matchGroupJID jid || matchBusinessJID jid ||
    matchLidJID jid || matchLidSuffixJID jid

/-- Source `models.SendMessageRequest`; Go struct fields `To` and `Message`. -/
structure SendMessageRequest where
  To : String
  Message : String
deriving DecidableEq, Repr

/-- Source `Validator.ValidateSendMessageRequest` (validation.go lines 38-62);
`len(req.Message)` counts UTF-8 bytes. -/
def ValidateSendMessageRequest (req : SendMessageRequest) :
    Option (ErrCode × String) :=
  if goTrimSpace req.To = "" then
    some (.validationFailed, "\x27to\x27 field is required")
  else if !IsValidJID req.To then
    some (.invalidJID, "Invalid WhatsApp JID: " ++ req.To)
  else if goTrimSpace req.Message = "" then
    some (.validationFailed, "\x27message\x27 field is required")
  else if req.Message.utf8ByteSize > 4096 then
    some (.validationFailed, "Message too long (maximum 4096 characters)")
  else none

/-- Emit a processed maximal newline run: three or more newlines become
exactly two, shorter runs stay, the effect of replacing
`\n\x7b3,\x7d` with two newlines. -/
def collapseRun (n : Nat) : List Char :=
  if n ≥ 3 then ['\n', '\n'] else List.replicate n '\n'

/-- Scan with the length of the pending newline run. -/
def collapseNewlinesAux (pending : Nat) : List Char → List Char
  | [] => collapseRun pending
  | c :: rest =>
      if c = '\n' then collapseNewlinesAux (pending + 1) rest
      else collapseRun pending ++ c :: collapseNewlinesAux 0 rest

def collapseNewlines (cs : List Char) : List Char :=
  collapseNewlinesAux 0 cs

/-- Source `Validator.SanitizeMessage`: trim, strip NUL bytes, collapse runs
of three or more newlines. -/
def SanitizeMessage (message : String) : String :=
  let message := goTrimSpace message
  let message := String.mk (message.data.filter (fun c => c ≠ Char.ofNat 0))
  String.mk (collapseNewlines message.data)

/-- Source `Handler.SendMessage` (handlers/handlers.go lines 103-162).
`req = none` is a body that failed JSON decoding.  The result also
reports whether `EnsureConnected` was invoked (the lazy connect
attempt). -/
def sendMessage (req : Option SendMessageRequest)
    (connected ensureOk sendOk : Bool) :
    HandlerOutcome × List (String × String) × Bool :=
  match req with
  | none => (.appError .invalidRequest "Invalid request body", [], false)
  | some req =>
      match ValidateSendMessageRequest req with
      | some (c, m) => (.appError c m, [], false)
      | none =>
          let msg := SanitizeMessage req.Message
          if !connected && !ensureOk then
            (.appError .connectionFailed "Failed to connect to WhatsApp", [], true)
          else if !sendOk then
            (.appError .messageSendFailed "Failed to send message",
             [(req.To, msg)], !connected)
          else
            (.json 202 ("\x7b\"status\":\"sent\",\"to\":\"" ++ req.To ++ "\"\x7d"),
             [(req.To, msg)], !connected)

/-! ## HTTP middleware pipeline (internal/server/server.go, middleware)

Each middleware of the Go chain becomes a handler transformer.  The
shared mutable state threaded through a request is the rate limiter
table; `now` is the request arrival time and `apiKeys` the configured
key set.  Results record the checks performed, in evaluation order, so
that ordering claims are about an observable trace. -/

structure HttpRequest where
  method : String
  path : String
  apiKeyHeader : String
  apiKeyQuery : String
  xForwardedFor : String
  xRealIP : String
  remoteAddr : String
  giteaSignature : String
  githubSignature : String
  body : List Nat
deriving DecidableEq, Repr

/-- Source `getClientIP` (validation.go lines 307-326): first entry of
X-Forwarded-For, else X-Real-IP, else RemoteAddr. -/
def getClientIP (r : HttpRequest) : String :=
  if r.xForwardedFor ≠ "" then
    goTrimSpace (String.mk (r.xForwardedFor.data.takeWhile (fun c => c ≠ ',')))
  else if r.xRealIP ≠ "" then r.xRealIP
  else r.remoteAddr

inductive MwEvent
  | authCheck
  | rateCheck
deriving DecidableEq, Repr

structure MwState where
  rl : RateLimiter
  now : Nat
  apiKeys : List String
deriving DecidableEq, Repr

structure HttpResponse where
  status : Nat
  body : String
  retryAfter : Option String
deriving DecidableEq, Repr

inductive MwResult
  | panicked (st : MwState) (events : List MwEvent)
  | responded (resp : HttpResponse) (st : MwState) (events : List MwEvent)
deriving DecidableEq, Repr

def MwResult.respStatus : MwResult → Option Nat
  | .panicked _ _ => none
  | .responded r _ _ => some r.status

def MwResult.respBody : MwResult → Option String
  | .panicked _ _ => none
  | .responded r _ _ => some r.body

def MwResult.events : MwResult → List MwEvent
  | .panicked _ ev => ev
  | .responded _ _ ev => ev

def MwResult.isPanicked : MwResult → Bool
  | .panicked _ _ => true
  | .responded _ _ _ => false

/-- Prepend an event performed before the inner handler ran. -/
def MwResult.withEvent (e : MwEvent) : MwResult → MwResult
  | .panicked st ev => .panicked st (e :: ev)
  | .responded r st ev => .responded r st (e :: ev)

abbrev HttpHandler := HttpRequest → MwState → MwResult

/-- Source `Middleware.Recovery` (validation.go lines 242-253): converts any
escaped fault into a 500 "Internal Server Error" response. -/
def recoveryMw (next : HttpHandler) : HttpHandler := fun r st =>
  match next r st with
  | .panicked st2 ev => .responded ⟨500, "Internal Server Error", none⟩ st2 ev
  | ok => ok

/-- Source `Middleware.Logging`: observational only. -/
def loggingMw (next : HttpHandler) : HttpHandler := next

/-- Source `Middleware.Security`: sets response headers only. -/
def securityMw (next : HttpHandler) : HttpHandler := next

/-- Source `Middleware.CORS`: answers OPTIONS preflight directly. -/
def corsMw (next : HttpHandler) : HttpHandler := fun r st =>
  if r.method = "OPTIONS" then .responded ⟨200, "", none⟩ st [] else next r st

/-- Source `Middleware.RateLimit` (validation.go lines 256-269). -/
def rateLimitMw (next : HttpHandler) : HttpHandler := fun r st =>
  let ip := getClientIP r
  let res := st.rl.Allow ip st.now
  let st2 : MwState := { st with rl := res.2 }
  if !res.1 then
    .responded ⟨429, "Rate limit exceeded. Please try again later.", some "60"⟩
      st2 [.rateCheck]
  else
    (next r st2).withEvent .rateCheck

/-- Source `Middleware.isValidAPIKey`: a constant-time comparison against each
configured key, true when one matches. -/
def isValidAPIKey (keys : List String) (providedKey : String) : Bool :=
  keys.any (fun k => k == providedKey)

/-- Header value first, query parameter fallback. -/
def effectiveAPIKey (r : HttpRequest) : String :=
  if r.apiKeyHeader ≠ "" then r.apiKeyHeader else r.apiKeyQuery

/-- Paths `Middleware.APIKeyAuth` skips. -/
def exemptPath (p : String) : Bool :=
  p = "/health" || p = "/webhook/gitea" || p = "/webhook/github"

def missingKeyBody : String :=
  "\x7b\"error\":\"Missing API key\",\"code\":\"UNAUTHORIZED\"\x7d"

def invalidKeyBody : String :=
  "\x7b\"error\":\"Invalid API key\",\"code\":\"UNAUTHORIZED\"\x7d"

/-- Source `Middleware.APIKeyAuth` (validation.go lines 337-368). -/
def apiKeyAuthMw (next : HttpHandler) : HttpHandler := fun r st =>
  if exemptPath r.path then next r st
  else
    let key := effectiveAPIKey r
    if key = "" then
      .responded ⟨401, missingKeyBody, none⟩ st [.authCheck]
    else if !isValidAPIKey st.apiKeys key then
      .responded ⟨401, invalidKeyBody, none⟩ st [.authCheck]
    else
      (next r st).withEvent .authCheck

/-- Request-independent collaborator outcomes and parse oracles: the
transport call results and the JSON decoding of request bodies, both
external collaborators per the specification scope. -/
structure Env where
  connected : Bool
  ensureOk : Bool
  sendOk : Bool
  giteaSecret : String
  giteaRecipient : String
  githubSecret : String
  githubRecipient : String
  parseSend : List Nat → Option SendMessageRequest
  parseGitea : List Nat → Except String GiteaWebhookPayload
  parseGitHub : List Nat → Except String GitHubWebhookPayload

def outcomeToResponse : HandlerOutcome → HttpResponse
  | .appError c m => ⟨getStatusCodeForError c, m, none⟩
  | .json s b => ⟨s, b, none⟩

/-- The route multiplexer registered in `Server.Start` (server.go lines
36-44), with `http.ServeMux` NotFound for unknown paths. -/
def realMux (env : Env) : HttpHandler := fun r st =>
  if r.path = "/health" then
    .responded ⟨200, "\x7b\"status\":\"ok\"\x7d", none⟩ st []
  else if r.path = "/contacts" then
    .responded ⟨200, "[]", none⟩ st []
  else if r.path = "/groups" then
    .responded ⟨200, "[]", none⟩ st []
  else if r.path = "/send" then
    let res := sendMessage (env.parseSend r.body) env.connected env.ensureOk env.sendOk
    .responded (outcomeToResponse res.1) st []
  else if r.path = "/webhook/gitea" then
    match giteaWebhook env.giteaSecret env.giteaRecipient r.giteaSignature r.body
        (env.parseGitea r.body) env.connected env.ensureOk env.sendOk with
    | .panicked _ => .panicked st []
    | .done o _ => .responded (outcomeToResponse o) st []
  else if r.path = "/webhook/github" then
    let res := githubWebhook env.githubSecret env.githubRecipient r.githubSignature
      r.body (env.parseGitHub r.body) env.connected env.ensureOk env.sendOk
    .responded (outcomeToResponse res.1) st []
  else
    .responded ⟨404, "404 page not found", none⟩ st []

/-- The middleware composition of `Server.Start` (server.go lines
46-52): `Recovery` is applied first (innermost, around the mux) and
`APIKeyAuth` last (outermost, entered first by a request). -/
def serverChain (mux : HttpHandler) : HttpHandler :=
  apiKeyAuthMw (rateLimitMw (corsMw (securityMw (loggingMw (recoveryMw mux)))))

/-- Fold a whole request trace through the rate limiter, for the
reachable-state invariant. -/
def allowTrace (rl : RateLimiter) (reqs : List (String × Nat)) : RateLimiter :=
  reqs.foldl (fun acc p => (acc.Allow p.1 p.2).2) rl

/-! ## Reconnection-loop interleaving (whatsapp.go lines 86-184)

An interleaving semantics for `handleConnectionEvents` and
`startReconnection`: every `reconnectMutex`-protected section of the Go
code is one atomic step.  A goroutine running `startReconnection` is a
`ReconLoop`; phase `entry` is the goroutine spawned but not yet through
its initial guarded section, phase `running` is past it (the guard was
set to this loop).  `cancelled` records that the context held by
`cancelReconnect` was cancelled while pointing at this loop. -/

inductive LoopPhase
  | entry
  | running
deriving DecidableEq, Repr

structure ReconLoop where
  id : Nat
  phase : LoopPhase
  cancelled : Bool
deriving DecidableEq, Repr

structure WAConcState where
  connected : Bool
  guard : Option Nat
  loops : List ReconLoop
  nextId : Nat
deriving DecidableEq, Repr

/-- The actions, each one atomic lock-protected section:
`evConnected` / `evDisconnected` are the `events.Connected` /
`events.Disconnected` arms of `handleConnectionEvents`;
`loopEnter` is the initial section of `startReconnection` (lines
119-129: early return when connected or a guard exists, otherwise store
the cancellation handle); `loopExitCancelled` is a cancelled loop
observing `ctx.Done()` and returning, running the deferred cleanup
(lines 131-135) that unconditionally clears `cancelReconnect`. -/
inductive WAAction
  | evConnected
  | evDisconnected
  | loopEnter (id : Nat)
  | loopExitCancelled (id : Nat)
deriving DecidableEq, Repr

def cancelLoopId (ls : List ReconLoop) (i : Nat) : List ReconLoop :=
  ls.map (fun l => if l.id = i then { l with cancelled := true } else l)

def setRunning (ls : List ReconLoop) (i : Nat) : List ReconLoop :=
  ls.map (fun l => if l.id = i then { l with phase := .running } else l)

def waStep (s : WAConcState) : WAAction → WAConcState
  | .evConnected =>
      let ls := match s.guard with
        | some i => cancelLoopId s.loops i
        | none => s.loops
      { s with connected := true, guard := none, loops := ls }
  | .evDisconnected =>
      if s.guard = none then
        { s with connected := false,
                 loops := s.loops ++ [⟨s.nextId, .entry, false⟩],
                 nextId := s.nextId + 1 }
      else { s with connected := false }
  | .loopEnter i =>
      match s.loops.find? (fun l => l.id = i) with
      | some l =>
          if l.phase = .entry then
            if s.connected || s.guard ≠ none then
              { s with loops := s.loops.filter (fun l => l.id ≠ i) }
            else
              { s with guard := some i, loops := setRunning s.loops i }
          else s
      | none => s
  | .loopExitCancelled i =>
      match s.loops.find? (fun l => l.id = i) with
      | some l =>
          if l.phase = .running && l.cancelled then
            { s with guard := none, loops := s.loops.filter (fun l => l.id ≠ i) }
          else s
      | none => s

def waRun (s : WAConcState) (as : List WAAction) : WAConcState :=
  as.foldl waStep s

/-- The state right after `Connect` succeeded: connected, no guard, no
loop goroutine. -/
def waInit : WAConcState :=
  { connected := true, guard := none, loops := [], nextId := 0 }

/-- Reconnection loops that are past their guard section and not
cancelled: loops actively retrying. -/
def activeLoops (s : WAConcState) : Nat :=
  (s.loops.filter (fun l => l.phase = .running && !l.cancelled)).length

/-- An event/schedule sequence in which a cancelled loop (0) runs its
deferred cleanup after a second loop (1) has installed itself in the
guard, clearing the guard of loop 1; a further disconnect then starts
loop 2 while loop 1 is still retrying. -/
def c7BugTrace : List WAAction :=
  [.evDisconnected, .loopEnter 0, .evConnected, .evDisconnected,
   .loopEnter 1, .loopExitCancelled 0, .evConnected, .evDisconnected,
   .loopEnter 2]

/-! ## Invariants and concrete scenarios -/

/-- The documented bucket invariant `0 <= tokens <= capacity`, for
every bucket in the table. -/
def bucketsInv (rl : RateLimiter) : Prop :=
  ∀ p ∈ rl.clients, 0 ≤ p.2.tokens ∧ p.2.tokens ≤ rl.requestsPerMinute

/-- Gitea-style generic webhook configuration for the zero-commit
scenario. -/
def c2Config : WebhookConfig :=
  { provider := "Gitea", signatureHeader := "X-Gitea-Signature",
    secret := "s3cr3t-secret", recipient := "1234567890@s.whatsapp.net",
    sigPfx := "" }

/-- A well-formed push payload whose commit list is empty. -/
def c2Payload : WebhookPayload :=
  { repositoryName := "owner/repo", pusherName := "nahid", branch := "main",
    commitCount := 0, commits := [], compareURL := "",
    fileChanges := ⟨0, 0, 0, [], [], []⟩ }

def c2Body : List Nat :=
  asciiBytes "\x7b\"ref\":\"refs/heads/main\",\"commits\":[]\x7d"

/-- The correct signature header for `c2Body` under the configured
secret. -/
def c2Sig : String := hexEncode (hmacSha256 (asciiBytes c2Config.secret) c2Body)

def c8Secret : String := "s3cr3t-secret"

def c8Body : List Nat :=
  asciiBytes ("\x7b\"ref\":\"refs/heads/main\",\"commits\":[\x7b\"id\":\"abcdef1234567\"," ++
    "\"message\":\"fix bug\\nmore detail\"\x7d]\x7d")

/-- The parse of `c8Body`: absent JSON fields decode to zero values. -/
def c8Payload : GitHubWebhookPayload :=
  { ref := "refs/heads/main", compare := "",
    commits := [⟨"abcdef1234567", "fix bug\nmore detail", "", ⟨""⟩⟩],
    repositoryFullName := "", pusherName := "" }

/-- The correct X-Hub-Signature-256 header for `c8Body`. -/
def c8Sig : String :=
  "sha256=" ++ hexEncode (hmacSha256 (asciiBytes c8Secret) c8Body)

def c8Recipient : String := "1234567890@s.whatsapp.net"

def c9Secret : String := "webhook-secret"

def c9Body : List Nat :=
  asciiBytes "\x7b\"ref\":\"refs/heads/main\",\"commits\":[]\x7d"

def c9Sig : String := hexEncode (hmacSha256 (asciiBytes c9Secret) c9Body)

/-- A correctly signed Gitea payload with zero commits, whose
formatting indexes the first commit. -/
def c9GiteaPayload : GiteaWebhookPayload :=
  { ref := "refs/heads/main", compareURL := "", commits := [],
    repositoryFullName := "owner/repo", pusherName := "nahid" }

def c9Env : Env :=
  { connected := true, ensureOk := true, sendOk := true,
    giteaSecret := c9Secret, giteaRecipient := "1234567890@s.whatsapp.net",
    githubSecret := "", githubRecipient := "",
    parseSend := fun _ => none,
    parseGitea := fun _ => .ok c9GiteaPayload,
    parseGitHub := fun _ => .error "unused" }

def c9Request : HttpRequest :=
  { method := "POST", path := "/webhook/gitea", apiKeyHeader := "",
    apiKeyQuery := "", xForwardedFor := "", xRealIP := "",
    remoteAddr := "10.0.0.1:5555", giteaSignature := c9Sig,
    githubSignature := "", body := c9Body }

def freshState : MwState :=
  { rl := middlewareNewLimiter, now := 0, apiKeys := ["secure-key-1"] }

def c6Env : Env :=
  { connected := true, ensureOk := true, sendOk := true,
    giteaSecret := "", giteaRecipient := "", githubSecret := "",
    githubRecipient := "",
    parseSend := fun _ => none,
    parseGitea := fun _ => .error "unused",
    parseGitHub := fun _ => .error "unused" }

/-- A /send request carrying an invalid API key from a client whose
bucket is exhausted. -/
def c6Request : HttpRequest :=
  { method := "POST", path := "/send", apiKeyHeader := "wrong-key",
    apiKeyQuery := "", xForwardedFor := "", xRealIP := "",
    remoteAddr := "1.2.3.4:9999", giteaSignature := "",
    githubSignature := "", body := [] }

/-- Same client, valid key. -/
def c6ReqValid : HttpRequest :=
  { method := "POST", path := "/send", apiKeyHeader := "secure-key-1",
    apiKeyQuery := "", xForwardedFor := "", xRealIP := "",
    remoteAddr := "1.2.3.4:9999", giteaSignature := "",
    githubSignature := "", body := [] }

/-- Middleware state in which the client bucket of 1.2.3.4:9999 is
exhausted inside the current window. -/
def c6State : MwState :=
  { rl := { clients := [("1.2.3.4:9999", ⟨0, 0⟩)],
            requestsPerMinute := 60, windowSize := 60000000000 },
    now := 0, apiKeys := ["secure-key-1"] }

/-! ## Theorems -/

/-- C1 counterexample: a state with internal flag and transport
predicate true but no stored credential.  `IsConnected` returns true
although one of the three components of the claim is false, so
`IsConnected` is not the AND of all three. -/
theorem claim_C1_counterexample :
    IsConnected ⟨true, true, false, false⟩ = true ∧
    SessionState.hasStoreID ⟨true, true, false, false⟩ = false ∧
    specIsConnected ⟨true, true, false, false⟩ = false := by
  decide

/-- C1 (amended): `IsConnected` is the logical AND of exactly two
components, the internal connected flag and the transport-level
predicate; credential presence is not consulted.  The externally
observable `connected` entry of the status snapshot equals the same
conjunction. -/
theorem claim_C1_amended (s : SessionState) :
    (IsConnected s = true ↔
      s.internalConnected = true ∧ s.clientConnected = true) ∧
    (GetConnectionStatus s).connected = IsConnected s := by
  refine ⟨?_, rfl⟩
  simp [IsConnected]

/-- C5: with the reconnection policy of `NewWhatsAppClient`
(10 attempts, 5s initial, 5min cap, multiplier 1.5), the wait before
the attempt following `k` failures equals
`min (initial * 1.5 ^ k) max` = `min (5e9 * 3 ^ k / 2 ^ k) 3e11`
nanoseconds, and the schedule stops after `maxRetries` attempts. -/
theorem claim_C5 :
    reconnectWaits defaultReconnectConfig =
      (List.range defaultReconnectConfig.maxRetries).map
        (fun k => min (defaultReconnectConfig.initialIntervalNs * 3 ^ k / 2 ^ k)
          defaultReconnectConfig.maxIntervalNs) ∧
    (reconnectWaits defaultReconnectConfig).length =
      defaultReconnectConfig.maxRetries := by
  decide

/-- C7: the claimed invariant "at most one reconnection loop active at
a time" fails.  In `c7BugTrace` loop 0 is started by a disconnect and
cancelled by a reconnect; loop 1 is started by the next disconnect and
installs itself in the guard; the cancelled loop 0 then exits and its
deferred cleanup (whatsapp.go lines 131-135) clears `cancelReconnect`
unconditionally, erasing loop 1 from the guard; after one more
connect/disconnect pair, loop 2 passes the empty-guard check and runs
while loop 1 is still retrying: two running, uncancelled loops. -/
theorem claim_C7_code_bug :
    activeLoops (waRun waInit c7BugTrace) = 2 ∧
    (waRun waInit c7BugTrace).loops =
      [⟨1, .running, false⟩, ⟨2, .running, false⟩] := by
  decide

/-- C2: the code violates the claim.  For a correctly signed payload
whose commit list is empty, `formatWebhookMessage` returns the
non-empty header block (despite its comment "return empty string" and
its log line "Skipping notification"), so the `message == ""` guard of
`handleWebhook` never fires: the dispatch sends the header-only
notification and responds 200, instead of answering a validation error
with no send attempted. -/
theorem claim_C2_code_bug :
    handleWebhook c2Config c2Sig c2Body (.ok c2Payload) true true true =
      (.json 200 jsonNotificationSent,
       [(c2Config.recipient, formatWebhookMessage c2Payload "Gitea")]) ∧
    formatWebhookMessage c2Payload "Gitea" ≠ "" ∧
    c2Payload.commits = [] := by
  decide

/-- C8: end-to-end GitHub dispatch of the scenario payload
(secret "s3cr3t-secret", ref refs/heads/main, one commit with id
"abcdef1234567" and message "fix bug\nmore detail") with its correct
signature header: the produced message carries the commit line
"• abcdef1 - fix bug" (hash truncated to its first 7 characters,
message truncated at its first newline) and the handler responds 200
with body `\x7b"status":"notification sent"\x7d`. -/
theorem claim_C8 :
    githubWebhook c8Secret c8Recipient c8Sig c8Body (.ok c8Payload)
      true true true =
      (.json 200 jsonNotificationSent,
       [(c8Recipient, formatGitHubMessage c8Payload)]) ∧
    formatGitHubMessage c8Payload =
      "🔔 *New Push to *\n\n👤 Pusher: \n🌿 Branch: main\n📊 Commits: 1\n\n" ++
        "*Commits:*\n• abcdef1 - fix bug\n" ∧
    jsonNotificationSent = "\x7b\"status\":\"notification sent\"\x7d" := by
  decide

/-- C6 counterexample: `Server.Start` wraps `APIKeyAuth` outermost
(server.go line 52), so a /send request with an invalid key from a
client whose bucket is exhausted is answered 401 after the key check,
with the rate limiter never consulted — although the rate limiter,
had it been asked, would have denied the request. -/
theorem claim_C6_counterexample :
    serverChain (realMux c6Env) c6Request c6State =
      .responded ⟨401, invalidKeyBody, none⟩ c6State [.authCheck] ∧
    (c6State.rl.Allow (getClientIP c6Request) c6State.now).1 = false := by
  decide

/-- C6 (amended): the API-key check is evaluated before the rate-limit
check, not after.  A request failing the key check on a protected path
is rejected 401 with the rate limiter never consulted; a request that
passes (or is exempt from) the key check and exceeds the rate limit is
rejected 429 with a Retry-After hint, the key check (when performed)
preceding the rate check in the trace. -/
theorem claim_C6_amended (env : Env) (req : HttpRequest) (st : MwState) :
    (exemptPath req.path = false → effectiveAPIKey req = "" →
      serverChain (realMux env) req st =
        .responded ⟨401, missingKeyBody, none⟩ st [.authCheck]) ∧
    (exemptPath req.path = false → effectiveAPIKey req ≠ "" →
      isValidAPIKey st.apiKeys (effectiveAPIKey req) = false →
      serverChain (realMux env) req st =
        .responded ⟨401, invalidKeyBody, none⟩ st [.authCheck]) ∧
    ((exemptPath req.path = true ∨
        (effectiveAPIKey req ≠ "" ∧
         isValidAPIKey st.apiKeys (effectiveAPIKey req) = true)) →
      (st.rl.Allow (getClientIP req) st.now).1 = false →
      serverChain (realMux env) req st =
        .responded ⟨429, "Rate limit exceeded. Please try again later.", some "60"⟩
          { st with rl := (st.rl.Allow (getClientIP req) st.now).2 }
          ((if exemptPath req.path then [] else [.authCheck]) ++ [.rateCheck])) := by
  refine ⟨?_, ?_, ?_⟩
  · intro hex hkey
    simp [serverChain, apiKeyAuthMw, hex, hkey]
  · intro hex hne hval
    simp [serverChain, apiKeyAuthMw, hex, hne, hval]
  · intro hauth hdeny
    by_cases hex : exemptPath req.path
    · simp [serverChain, apiKeyAuthMw, hex, rateLimitMw, hdeny]
    · rcases hauth with h | ⟨hne, hval⟩
      · exact absurd h (by simpa using hex)
      · simp [serverChain, apiKeyAuthMw, hex, hne, hval, rateLimitMw, hdeny,
          MwResult.withEvent]

/-- C6 amended witness: the same exhausted client with a valid key is
rejected 429 with Retry-After 60, the rate check following the key
check. -/
theorem claim_C6_amended_witness :
    serverChain (realMux c6Env) c6ReqValid c6State =
      .responded ⟨429, "Rate limit exceeded. Please try again later.", some "60"⟩
        { c6State with rl := (c6State.rl.Allow (getClientIP c6ReqValid) c6State.now).2 }
        ((if exemptPath c6ReqValid.path then [] else [.authCheck]) ++ [.rateCheck]) :=
  (claim_C6_amended c6Env c6ReqValid c6State).2.2
    (Or.inr ⟨by decide, by decide⟩) (by decide)

/-- Prepending a trace event never turns a response into a fault. -/
theorem withEvent_isPanicked (e : MwEvent) (m : MwResult) :
    (m.withEvent e).isPanicked = m.isPanicked := by
  cases m <;> rfl

/-- The recovery boundary converts every fault of the wrapped handler. -/
theorem recoveryMw_noPanic (mux : HttpHandler) (r : HttpRequest) (st : MwState) :
    (recoveryMw mux r st).isPanicked = false := by
  unfold recoveryMw
  cases mux r st <;> rfl

theorem corsMw_noPanic (next : HttpHandler)
    (h : ∀ r st, (next r st).isPanicked = false) (r : HttpRequest)
    (st : MwState) : (corsMw next r st).isPanicked = false := by
  unfold corsMw
  split
  · rfl
  · exact h r st

theorem rateLimitMw_noPanic (next : HttpHandler)
    (h : ∀ r st, (next r st).isPanicked = false) (r : HttpRequest)
    (st : MwState) : (rateLimitMw next r st).isPanicked = false := by
  unfold rateLimitMw
  dsimp only
  split
  · rfl
  · rw [withEvent_isPanicked]
    exact h r _

theorem apiKeyAuthMw_noPanic (next : HttpHandler)
    (h : ∀ r st, (next r st).isPanicked = false) (r : HttpRequest)
    (st : MwState) : (apiKeyAuthMw next r st).isPanicked = false := by
  unfold apiKeyAuthMw
  dsimp only
  split
  · exact h r st
  · split
    · rfl
    · split
      · rfl
      · rw [withEvent_isPanicked]
        exact h r st

/-- C9: the composed server pipeline never lets a fault escape: for
every multiplexed handler, request and state the result is a response,
never a fault; in particular the correctly signed Gitea payload with
zero commits, whose formatting indexes the first commit and faults, is
answered by the recovery boundary with the generic 500
"Internal Server Error" response. -/
theorem claim_C9 :
    (∀ (mux : HttpHandler) (req : HttpRequest) (st : MwState),
      (serverChain mux req st).isPanicked = false) ∧
    (serverChain (realMux c9Env) c9Request freshState).respStatus = some 500 ∧
    (serverChain (realMux c9Env) c9Request freshState).respBody =
      some "Internal Server Error" ∧
    giteaWebhook c9Secret c9Env.giteaRecipient c9Sig c9Body
      (.ok c9GiteaPayload) true true true =
      .panicked "runtime error: index out of range [0] with length 0" := by
  refine ⟨?_, by decide, by decide, by decide⟩
  intro mux req st
  exact apiKeyAuthMw_noPanic _
    (rateLimitMw_noPanic _
      (corsMw_noPanic _ (fun r s => recoveryMw_noPanic mux r s))) req st

/-- C10: /send validation accepts exactly the requests whose recipient
is non-blank and a recognized JID shape and whose message is non-blank
and at most 4096 bytes; every rejected request is answered with a
400-status validation error (VALIDATION_FAILED or INVALID_JID) before
any connection or send is attempted. -/
theorem claim_C10 (req : SendMessageRequest) (connected ensureOk sendOk : Bool) :
    (ValidateSendMessageRequest req = none ↔
      (goTrimSpace req.To ≠ "" ∧ IsValidJID req.To = true ∧
       goTrimSpace req.Message ≠ "" ∧ req.Message.utf8ByteSize ≤ 4096)) ∧
    (∀ c m, ValidateSendMessageRequest req = some (c, m) →
      sendMessage (some req) connected ensureOk sendOk =
        (.appError c m, [], false) ∧
      getStatusCodeForError c = 400 ∧
      (c = .validationFailed ∨ c = .invalidJID)) := by
  constructor
  · unfold ValidateSendMessageRequest
    split_ifs with h1 h2 h3 h4 <;> simp_all
  · intro c m h
    have hc : c = .validationFailed ∨ c = .invalidJID := by
      unfold ValidateSendMessageRequest at h
      split_ifs at h <;> simp_all
    refine ⟨by simp [sendMessage, h], ?_, hc⟩
    rcases hc with hc | hc <;> subst hc <;> rfl

/-- C10 witness: a request with an unrecognized recipient shape is
rejected with the 400 INVALID_JID error, no send attempted and no
connection attempted. -/
theorem claim_C10_witness :
    sendMessage (some ⟨"bad-jid", "hello"⟩) true true true =
      (.appError .invalidJID "Invalid WhatsApp JID: bad-jid", [], false) :=
  ((claim_C10 ⟨"bad-jid", "hello"⟩ true true true).2 .invalidJID
    "Invalid WhatsApp JID: bad-jid" (by decide)).1

theorem takeLenAppendEq {α : Type} (l1 l2 : List α) :
    (l1 ++ l2).take l1.length = l1 := by
  induction l1 with
  | nil => rfl
  | cons a t ih => simp [ih]

theorem dropLenAppendEq {α : Type} (l1 l2 : List α) :
    (l1 ++ l2).drop l1.length = l2 := by
  induction l1 with
  | nil => rfl
  | cons a t ih => simp [ih]

theorem hasPfxStr_append (pfx rest : String) :
    hasPfxStr (pfx ++ rest) pfx = true := by
  simp [hasPfxStr, String.data_append, takeLenAppendEq]

theorem trimPfxStr_append (pfx rest : String) :
    trimPfxStr (pfx ++ rest) pfx = rest := by
  simp [trimPfxStr, hasPfxStr_append, String.data_append, dropLenAppendEq]

theorem hexEncode_data_length (bs : List Nat) :
    (hexEncode bs).data.length = 2 * bs.length := by
  induction bs with
  | nil => rfl
  | cons b t ih =>
      simp [hexEncode, hexByteChars] at ih ⊢
      omega

theorem bytesOfWord_lt (w : Nat) : ∀ b ∈ bytesOfWord w, b < 256 := by
  intro b hb
  simp [bytesOfWord] at hb
  rcases hb with h | h | h | h <;> subst h <;>
    exact Nat.mod_lt _ (by norm_num)

theorem memAppendLt (l1 l2 : List Nat) (h1 : ∀ b ∈ l1, b < 256)
    (h2 : ∀ b ∈ l2, b < 256) : ∀ b ∈ l1 ++ l2, b < 256 := by
  intro b hb
  rcases List.mem_append.mp hb with h | h
  · exact h1 b h
  · exact h2 b h

theorem sha256_bytes_lt (m : List Nat) : ∀ b ∈ sha256 m, b < 256 := by
  unfold sha256
  dsimp only
  repeat' apply memAppendLt
  all_goals exact bytesOfWord_lt _

theorem hmacSha256_bytes_lt (k m : List Nat) :
    ∀ b ∈ hmacSha256 k m, b < 256 := by
  unfold hmacSha256
  exact sha256_bytes_lt _

theorem digitChar_inj :
    ∀ a < 16, ∀ b < 16, Nat.digitChar a = Nat.digitChar b → a = b := by
  decide

theorem hexByteChars_inj {a b : Nat} (ha : a < 256) (hb : b < 256)
    (h : hexByteChars a = hexByteChars b) : a = b := by
  simp [hexByteChars] at h
  obtain ⟨h1, h2⟩ := h
  have e1 := digitChar_inj (a / 16) (by omega) (b / 16) (by omega) h1
  have e2 := digitChar_inj (a % 16) (by omega) (b % 16) (by omega) h2
  omega

theorem hexEncode_inj :
    ∀ (xs : List Nat), (∀ b ∈ xs, b < 256) →
    ∀ (ys : List Nat), (∀ b ∈ ys, b < 256) →
    hexEncode xs = hexEncode ys → xs = ys := by
  intro xs
  induction xs with
  | nil =>
      intro _ ys _ h
      cases ys with
      | nil => rfl
      | cons y yt =>
          have hlen : (hexEncode []).data.length =
              (hexEncode (y :: yt)).data.length := by rw [h]
          rw [hexEncode_data_length, hexEncode_data_length] at hlen
          simp at hlen
  | cons x xt ih =>
      intro hx ys hy h
      cases ys with
      | nil =>
          have hlen : (hexEncode (x :: xt)).data.length =
              (hexEncode []).data.length := by rw [h]
          rw [hexEncode_data_length, hexEncode_data_length] at hlen
          simp at hlen
      | cons y yt =>
          have hd : (hexEncode (x :: xt)).data = (hexEncode (y :: yt)).data := by
            rw [h]
          simp [hexEncode, hexByteChars] at hd
          obtain ⟨h1, h2, h3⟩ := hd
          have exy : x = y :=
            hexByteChars_inj (hx x (by simp)) (hy y (by simp))
              (by simp [hexByteChars, h1, h2])
          have ht : xt = yt :=
            ih (fun b hb => hx b (by simp [hb])) yt
              (fun b hb => hy b (by simp [hb]))
              (by simpa [hexEncode] using congrArg String.mk h3)
          simp [exy, ht]

/-- C4: webhook signature verification is characterized completely: it
succeeds exactly when the secret is unconfigured (insecure mode,
unconditional success), or when the provided header carries the
required leader (verification fails whenever a required leader is
absent) and the remaining digest equals the lowercase hex HMAC-SHA256
of the raw body under the secret.  Consequently the correct digest
verifies, any other digest — in particular any mutation of it — fails,
and a mutated body verified against the original digest succeeds
exactly when its HMAC coincides with the original HMAC, so it fails
for every mutation that changes the HMAC value. -/
theorem claim_C4 (cfg : WebhookConfig) (secret : String)
    (body body2 : List Nat) (sig : String) :
    (verifyWebhookSignature cfg body sig = true ↔
      (cfg.secret = "" ∨
       (cfg.sigPfx = "" ∧
        sig = hexEncode (hmacSha256 (asciiBytes cfg.secret) body)) ∨
       (cfg.sigPfx ≠ "" ∧ hasPfxStr sig cfg.sigPfx = true ∧
        trimPfxStr sig cfg.sigPfx =
          hexEncode (hmacSha256 (asciiBytes cfg.secret) body)))) ∧
    (verifyGitHubSignature secret body sig = true ↔
      (secret = "" ∨
       (hasPfxStr sig "sha256=" = true ∧
        trimPfxStr sig "sha256=" =
          hexEncode (hmacSha256 (asciiBytes secret) body)))) ∧
    (verifyGitHubSignature secret body
      ("sha256=" ++ hexEncode (hmacSha256 (asciiBytes secret) body)) = true) ∧
    (verifyGitHubSignature secret body2
      ("sha256=" ++ hexEncode (hmacSha256 (asciiBytes secret) body)) = true ↔
      (secret = "" ∨
       hmacSha256 (asciiBytes secret) body2 =
         hmacSha256 (asciiBytes secret) body)) := by
  refine ⟨?_, ?_, ?_, ?_⟩
  · by_cases hs : cfg.secret = ""
    · simp [verifyWebhookSignature, hs]
    · by_cases hp : cfg.sigPfx = ""
      · simp [verifyWebhookSignature, hs, hp, hmacEqual]
      · by_cases hh : hasPfxStr sig cfg.sigPfx
        · simp [verifyWebhookSignature, hs, hp, hh, hmacEqual]
        · simp [verifyWebhookSignature, hs, hp, hh]
  · by_cases hs : secret = ""
    · simp [verifyGitHubSignature, hs]
    · by_cases hh : hasPfxStr sig "sha256="
      · simp [verifyGitHubSignature, hs, hh, hmacEqual]
      · simp [verifyGitHubSignature, hs, hh]
  · by_cases hs : secret = ""
    · simp [verifyGitHubSignature, hs]
    · simp [verifyGitHubSignature, hs, hasPfxStr_append, trimPfxStr_append,
        hmacEqual]
  · by_cases hs : secret = ""
    · simp [verifyGitHubSignature, hs]
    · have e : verifyGitHubSignature secret body2
          ("sha256=" ++ hexEncode (hmacSha256 (asciiBytes secret) body)) =
          hmacEqual (hexEncode (hmacSha256 (asciiBytes secret) body))
            (hexEncode (hmacSha256 (asciiBytes secret) body2)) := by
        simp [verifyGitHubSignature, hs, hasPfxStr_append, trimPfxStr_append]
      rw [e]
      simp only [hmacEqual, beq_iff_eq]
      constructor
      · intro h
        exact Or.inr
          ((hexEncode_inj _ (hmacSha256_bytes_lt _ _) _
            (hmacSha256_bytes_lt _ _) h).symm)
      · intro h
        rcases h with h | h
        · exact absurd h hs
        · rw [h]

theorem lookup_store_self (cs : List (String × ClientBucket)) (ip : String)
    (b : ClientBucket) : lookupBucket (storeBucket cs ip b) ip = some b := by
  induction cs with
  | nil => simp [storeBucket, lookupBucket]
  | cons q t ih =>
      obtain ⟨k, b0⟩ := q
      by_cases h : k = ip
      · simp [storeBucket, lookupBucket, h]
      · simp [storeBucket, lookupBucket, h, ih]

theorem lookup_mem (cs : List (String × ClientBucket)) (ip : String)
    (b : ClientBucket) (h : lookupBucket cs ip = some b) : (ip, b) ∈ cs := by
  induction cs with
  | nil => simp [lookupBucket] at h
  | cons q t ih =>
      obtain ⟨k, b0⟩ := q
      by_cases hk : k = ip
      · simp [lookupBucket, hk] at h
        simp [hk, h]
      · simp [lookupBucket, hk] at h
        exact List.mem_cons_of_mem _ (ih h)

theorem mem_storeBucket (ip : String) (b : ClientBucket) :
    ∀ (cs : List (String × ClientBucket)) (p : String × ClientBucket),
      p ∈ storeBucket cs ip b → p = (ip, b) ∨ p ∈ cs := by
  intro cs
  induction cs with
  | nil =>
      intro p hp
      simp [storeBucket] at hp
      exact Or.inl hp
  | cons q t ih =>
      intro p hp
      obtain ⟨k, b0⟩ := q
      by_cases h : k = ip
      · simp [storeBucket, h] at hp
        rcases hp with hp | hp
        · left; simp [hp]
        · right; simp [hp]
      · simp [storeBucket, h] at hp
        rcases hp with hp | hp
        · right; simp [hp]
        · rcases ih p hp with h1 | h1
          · exact Or.inl h1
          · right; simp [h1]

/-- Source `Allow` for an identity with no bucket yet: a fresh bucket at full
capacity is created (its creation stamp makes the refill test a no-op)
and one token is consumed when available. -/
theorem allow_fresh (cap : Int) (win : Nat) (cs : List (String × ClientBucket))
    (ip : String) (now : Nat) (hb : lookupBucket cs ip = none) :
    RateLimiter.Allow ⟨cs, cap, win⟩ ip now =
      (decide (0 < cap),
       ⟨storeBucket cs ip ⟨if 0 < cap then cap - 1 else cap, now⟩, cap, win⟩) := by
  simp only [RateLimiter.Allow, hb, Nat.sub_self, ite_self]
  by_cases hc : 0 < cap <;> simp [hc]

/-- Source `Allow` inside the window: the stored bucket keeps its refill
stamp and loses one token when available. -/
theorem allow_no_refill (cap : Int) (win : Nat)
    (cs : List (String × ClientBucket)) (ip : String) (b : ClientBucket)
    (now : Nat) (hb : lookupBucket cs ip = some b)
    (hnr : ¬ win ≤ now - b.lastRefill) :
    RateLimiter.Allow ⟨cs, cap, win⟩ ip now =
      (decide (0 < b.tokens),
       ⟨storeBucket cs ip
         ⟨if 0 < b.tokens then b.tokens - 1 else b.tokens, b.lastRefill⟩,
        cap, win⟩) := by
  simp only [RateLimiter.Allow, hb, ge_iff_le, if_neg hnr]
  by_cases hc : 0 < b.tokens <;> simp [hc]

/-- Source `Allow` once the window has elapsed: the bucket is reset to full
capacity in one step (regardless of its prior token count) and one
token is consumed when available. -/
theorem allow_refill (cap : Int) (win : Nat)
    (cs : List (String × ClientBucket)) (ip : String) (b : ClientBucket)
    (now : Nat) (hb : lookupBucket cs ip = some b)
    (hr : win ≤ now - b.lastRefill) :
    RateLimiter.Allow ⟨cs, cap, win⟩ ip now =
      (decide (0 < cap),
       ⟨storeBucket cs ip ⟨if 0 < cap then cap - 1 else cap, now⟩, cap, win⟩) := by
  simp only [RateLimiter.Allow, hb, ge_iff_le, if_pos hr]
  by_cases hc : 0 < cap <;> simp [hc]

/-- A run of calls inside one window, from a bucket that has already
lost `j` tokens: call `i` of the run is admitted exactly when
`j + i < cap`. -/
theorem allow_in_window (cap win : Nat) (ip : String) (t0 : Nat)
    (hwin : 0 < win) :
    ∀ (ts : List Nat) (cs : List (String × ClientBucket)) (j : Nat),
      lookupBucket cs ip = some ⟨((cap - j : Nat) : Int), t0⟩ →
      (∀ t ∈ ts, t < t0 + win) →
      (allowRun ⟨cs, (cap : Int), win⟩ ip ts).1 =
        (List.range ts.length).map (fun i => decide (j + i < cap)) := by
  intro ts
  induction ts with
  | nil => intro cs j _ _; rfl
  | cons t ts ih =>
      intro cs j hb hts
      have hlt : t < t0 + win := hts t (by simp)
      have hnr : ¬ win ≤ t - t0 := by omega
      have hstep := allow_no_refill (cap : Int) win cs ip _ t hb hnr
      have hbk : (if 0 < ((cap - j : Nat) : Int)
            then ((cap - j : Nat) : Int) - 1 else ((cap - j : Nat) : Int)) =
          ((cap - (j + 1) : Nat) : Int) := by
        split <;> omega
      simp only [allowRun, hstep, hbk]
      have htl := ih (storeBucket cs ip ⟨((cap - (j + 1) : Nat) : Int), t0⟩)
        (j + 1) (lookup_store_self cs ip _) (fun u hu => hts u (by simp [hu]))
      simp only [htl]
      simp only [List.length_cons]
      rw [List.range_succ_eq_map, List.map_cons, List.map_map]
      refine congrArg₂ List.cons ?_ ?_
      · exact (decide_eq_decide.mpr (by omega)).symm
      · apply List.map_congr_left
        intro i _
        simp only [Function.comp]
        exact decide_eq_decide.mpr (by omega)

/-- One `Allow` call keeps every bucket inside `0 ≤ tokens ≤ capacity`. -/
theorem allow_preserves_inv (rl : RateLimiter) (ip : String) (now : Nat)
    (hcap : 0 ≤ rl.requestsPerMinute) (h : bucketsInv rl) :
    bucketsInv (rl.Allow ip now).2 := by
  obtain ⟨cs, cap, win⟩ := rl
  simp only [bucketsInv] at h ⊢
  rcases hlb : lookupBucket cs ip with _ | b
  · rw [allow_fresh cap win cs ip now hlb]
    intro p hp
    rcases mem_storeBucket ip _ cs p hp with hq | hq
    · subst hq
      constructor <;> simp <;> split <;> simp_all <;> omega
    · exact h p hq
  · have hinv := h (ip, b) (lookup_mem cs ip b hlb)
    by_cases hr : win ≤ now - b.lastRefill
    · rw [allow_refill cap win cs ip b now hlb hr]
      intro p hp
      rcases mem_storeBucket ip _ cs p hp with hq | hq
      · subst hq
        constructor <;> simp <;> split <;> simp_all <;> omega
      · exact h p hq
    · rw [allow_no_refill cap win cs ip b now hlb hr]
      intro p hp
      rcases mem_storeBucket ip _ cs p hp with hq | hq
      · subst hq
        constructor <;> simp <;> split <;> simp_all <;> omega
      · exact h p hq

theorem allow_rpm (rl : RateLimiter) (ip : String) (now : Nat) :
    ((rl.Allow ip now).2).requestsPerMinute = rl.requestsPerMinute := by
  obtain ⟨cs, cap, win⟩ := rl
  rcases hlb : lookupBucket cs ip with _ | b
  · rw [allow_fresh cap win cs ip now hlb]
  · by_cases hr : win ≤ now - b.lastRefill
    · rw [allow_refill cap win cs ip b now hlb hr]
    · rw [allow_no_refill cap win cs ip b now hlb hr]

theorem trace_preserves_inv :
    ∀ (reqs : List (String × Nat)) (rl : RateLimiter),
      0 ≤ rl.requestsPerMinute → bucketsInv rl →
      bucketsInv (allowTrace rl reqs) := by
  intro reqs
  induction reqs with
  | nil => intro rl _ h; exact h
  | cons q t ih =>
      intro rl hcap h
      simp only [allowTrace, List.foldl_cons]
      have hpres := allow_preserves_inv rl q.1 q.2 hcap h
      have hr : 0 ≤ ((rl.Allow q.1 q.2).2).requestsPerMinute := by
        rw [allow_rpm]; exact hcap
      exact ih _ hr hpres

/-- C3: token-bucket behaviour.  (1) a fresh identity issuing calls
inside one window is admitted for exactly the first `cap` calls and
denied from call `cap + 1` on; (2) once the elapsed time since the last
refill reaches the window size, one call resets the bucket to full
capacity in a single step, whatever its token count was, and consumes
one token; (3) every bucket reachable from the limiter that
`middleware.New` builds satisfies `0 ≤ tokens ≤ capacity`. -/
theorem claim_C3 (cap win : Nat) (cs : List (String × ClientBucket))
    (ip : String) (t0 : Nat) (ts : List Nat) (hwin : 0 < win)
    (hfresh : lookupBucket cs ip = none)
    (hts : ∀ t ∈ ts, t < t0 + win) :
    (allowRun ⟨cs, (cap : Int), win⟩ ip (t0 :: ts)).1 =
      (List.range (ts.length + 1)).map (fun i => decide (i < cap)) ∧
    (∀ (rl : RateLimiter) (b : ClientBucket) (now : Nat),
      lookupBucket rl.clients ip = some b →
      b.lastRefill + rl.windowSize ≤ now →
      (rl.Allow ip now).1 = decide (0 < rl.requestsPerMinute) ∧
      lookupBucket ((rl.Allow ip now).2).clients ip =
        some ⟨if 0 < rl.requestsPerMinute then rl.requestsPerMinute - 1
              else rl.requestsPerMinute, now⟩) ∧
    (∀ reqs : List (String × Nat),
      bucketsInv (allowTrace middlewareNewLimiter reqs)) := by
  refine ⟨?_, ?_, ?_⟩
  · have hstep := allow_fresh (cap : Int) win cs ip t0 hfresh
    have hbk : (if 0 < (cap : Int) then (cap : Int) - 1 else (cap : Int)) =
        ((cap - 1 : Nat) : Int) := by
      split <;> omega
    simp only [allowRun, hstep, hbk]
    have htl := allow_in_window cap win ip t0 hwin ts
      (storeBucket cs ip ⟨((cap - 1 : Nat) : Int), t0⟩) 1
      (lookup_store_self cs ip _) hts
    simp only [htl]
    rw [List.range_succ_eq_map, List.map_cons, List.map_map]
    refine congrArg₂ List.cons ?_ ?_
    · exact (decide_eq_decide.mpr (by omega)).symm
    · apply List.map_congr_left
      intro i _
      simp only [Function.comp]
      exact decide_eq_decide.mpr (by omega)
  · intro rl b now hb hw
    obtain ⟨cs', cap', win'⟩ := rl
    simp only at hb hw ⊢
    have hr : win' ≤ now - b.lastRefill := by omega
    rw [allow_refill cap' win' cs' ip b now hb hr]
    exact ⟨rfl, lookup_store_self cs' ip _⟩
  · intro reqs
    refine trace_preserves_inv reqs middlewareNewLimiter (by decide) ?_
    intro p hp
    simp [middlewareNewLimiter] at hp

/-- C3 witness: capacity 2, window 10: three calls at times 100, 101,
102 give admitted, admitted, denied; and the refill conjunct applied to
an exhausted bucket once the window elapsed gives one-step reset with
admission. -/
theorem claim_C3_witness :
    (allowRun ⟨[], (2 : Int), 10⟩ "ip" [100, 101, 102]).1 =
      [true, true, false] ∧
    (RateLimiter.Allow ⟨[("ip", ⟨0, 100⟩)], (2 : Int), 10⟩ "ip" 110).1 = true := by
  constructor
  · have h := (claim_C3 2 10 [] "ip" 100 [101, 102] (by decide) (by decide)
      (by decide)).1
    exact h.trans (by decide)
  · have h := ((claim_C3 2 10 [] "ip" 100 [] (by decide) (by decide)
      (by decide)).2.1 ⟨[("ip", ⟨0, 100⟩)], (2 : Int), 10⟩ ⟨0, 100⟩ 110
      (by decide) (by decide)).1
    rw [h]
    decide

end WhatsappNotifier
